import Mathlib

/-!
Verification of the response-cache middleware (`checkCacheMiddleware`), the
webhooks mutation hook (`WebhooksService`), and the cache-key derivation of
the directus repository, as a shallow embedding in Lean.

Conventions of the embedding:
* JavaScript exceptions raised by a cache-store read are modelled by
  `Except String`, the error string standing for `err.message`.
* A store lookup returning `undefined` (absent key) is `Option.none`.
* The middleware is a pure function from its inputs (environment, store,
  helper functions, clock, request) to an `MwResult` recording, in order,
  the response headers it set, the store keys it read, the warnings it
  logged, and whether it served the cached payload or called `next()`.
* Helper utilities that live outside the given sources
  (`shouldSkipCache`, `getCacheKey`, `getCacheControlHeader`) are abstract
  function parameters of the middleware, since the middleware only ever
  calls them.
-/

deriving instance DecidableEq for Except

namespace Directus

/-- A JSON-ish value held by the cache store: an opaque serialized body plus
an optional numeric `exp` field (the field the expiry lookup reads). -/
structure JVal where
  exp : Option Int
  body : String
deriving DecidableEq, Repr

/-- The cache store read interface: `getCacheValue cache key` either throws
(`Except.error` with the message) or returns the value found, `none` when the
key is absent. -/
abbrev Store := String → Except String (Option JVal)

/-- The parts of the express request object the middleware and key deriver
inspect. `originalUrl` is optional since express types allow `undefined`. -/
structure Request where
  method : String
  originalUrl : Option String
  path : String
  query : List (String × String)
  identity : String
deriving DecidableEq, Repr

/-- The environment flags read by the middleware: `CACHE_ENABLED` (the code
compares it with `=== true`) and `CACHE_STATUS_HEADER` (`none` models an
unset variable; the code guards each use with a JS truthiness check, under
which the empty string is also falsy). -/
structure Env where
  cacheEnabled : Bool
  statusHeader : Option String
deriving DecidableEq, Repr

/-- Terminal state of one middleware run: either the cached payload was
returned by `res.json` (downstream logic not invoked), or the request was
passed through by calling `next()`. -/
inductive Outcome where
  | served (data : JVal)
  | passThrough
deriving DecidableEq, Repr

/-- Observable effects of one middleware run: headers set via `res.setHeader`
in order, store keys read in order, warning messages logged, and the
terminal `Outcome`. -/
structure MwResult where
  headers : List (String × String)
  lookups : List String
  logs : List String
  outcome : Outcome
deriving DecidableEq, Repr

/-- Headers produced by `if (env['CACHE_STATUS_HEADER']) res.setHeader(..., 'MISS')`:
one MISS header when the variable is set and truthy, nothing otherwise. -/
def missHeaders (E : Env) : List (String × String) :=
  match E.statusHeader with
  | some s => if s ≠ "" then [(s, "MISS")] else []
  | none => []

/-- Headers produced by the corresponding HIT line on the serve branch. -/
def hitHeaders (E : Env) : List (String × String) :=
  match E.statusHeader with
  | some s => if s ≠ "" then [(s, "HIT")] else []
  | none => []

/-- Embedding of JavaScript `String.prototype.toLowerCase` (character-wise
lowercasing), written structurally over the character list so that it
evaluates inside proofs. -/
def jsToLower (s : String) : String := ⟨s.data.map Char.toLower⟩

/-- The warning text logged by the catch blocks. -/
def cacheReadWarning (key msg : String) : String :=
  "[cache] Couldn\x27t read key " ++ key ++ ". " ++ msg

/-- The first guard of the middleware:
`req.method.toLowerCase() !== 'get' && req.originalUrl?.startsWith('/graphql') === false`.
With `originalUrl` undefined the optional chain yields `undefined`, and
`undefined === false` is `false`, so the guard does not fire. -/
def mutatingVerbGuard (req : Request) : Bool :=
  (jsToLower req.method != "get") &&
    (match req.originalUrl with
     | some u => !(u.startsWith "/graphql")
     | none => false)

/-- The TTL computation of the middleware on the serve branch:
`cacheExpiryDate = (...)?.exp` followed by
`cacheTTL = cacheExpiryDate ? cacheExpiryDate - Date.now() : undefined`.
Note that in JavaScript the number 0 is falsy, so a stored timestamp of 0
yields `undefined` rather than `0 - now`. -/
def remainingTTL (expEntry : Option JVal) (now : Int) : Option Int :=
  match Option.bind expEntry JVal.exp with
  | some e => if e ≠ 0 then some (e - now) else none
  | none => none

/-- The middleware body from the `shouldSkipCache` check onward, reached once
the three early guards have been passed and the store is known present.
Mirrors the source line by line: skip check, payload lookup under the derived
key (errors caught, logged, MISS, `next()`), then on a truthy payload the
expiry lookup under the suffixed key (errors likewise caught), the TTL
computation `cacheExpiryDate ? cacheExpiryDate - Date.now() : undefined`
(note JS falsiness of the number 0), the three header writes, and
`res.json(cachedData)`; on a falsy payload, MISS and `next()`. -/
def afterGuards (E : Env) (cache : Store) (ssc : Request → Bool)
    (gck : Request → String) (gcch : Request → Option Int → Bool → Bool → String)
    (now : Int) (req : Request) : MwResult :=
  if ssc req then
    ⟨missHeaders E, [], [], .passThrough⟩
  else
    let key := gck req
    match cache key with
    | .error msg =>
      ⟨missHeaders E, [key], [cacheReadWarning key msg], .passThrough⟩
    | .ok none =>
      ⟨missHeaders E, [key], [], .passThrough⟩
    | .ok (some cachedData) =>
      match cache (key ++ "__expires_at") with
      | .error msg =>
        ⟨missHeaders E, [key, key ++ "__expires_at"],
          [cacheReadWarning (key ++ "__expires_at") msg], .passThrough⟩
      | .ok expEntry =>
        ⟨[("Cache-Control", gcch req (remainingTTL expEntry now) true true),
            ("Vary", "Origin, Cache-Control")] ++ hitHeaders E,
          [key, key ++ "__expires_at"], [], .served cachedData⟩

/-- The full middleware `checkCacheMiddleware` of the source: the three early
pass-through guards (mutating verb outside `/graphql`, caching disabled,
store object absent) followed by `afterGuards`. -/
def checkCacheMiddleware (E : Env) (cacheOpt : Option Store) (ssc : Request → Bool)
    (gck : Request → String) (gcch : Request → Option Int → Bool → Bool → String)
    (now : Int) (req : Request) : MwResult :=
  if mutatingVerbGuard req then
    ⟨[], [], [], .passThrough⟩
  else if E.cacheEnabled != true then
    ⟨[], [], [], .passThrough⟩
  else
    match cacheOpt with
    | none => ⟨[], [], [], .passThrough⟩
    | some cache => afterGuards E cache ssc gck gcch now req

/-- A primary key returned by a mutation (directus allows string keys). -/
abbrev PrimaryKey := String

/-- One message published on the invalidation bus: channel name, the `type`
field of the message object, and whether the bus accepted it. -/
structure PubEvent where
  channel : String
  msgType : String
  delivered : Bool
deriving DecidableEq, Repr

/-- Modelled from the spec: `Messenger.publish` (the messenger implementation
is not among the given sources). Per the spec it is fire-and-forget: a
publish failure is logged and never raises into the caller, so it is a pure
event emission whose success flag does not influence control flow. -/
def Messenger.publish (busOk : Bool) (channel : String) (ty : String) : List PubEvent :=
  [⟨channel, ty, busOk⟩]

/-- The `createOne` override of `WebhooksService`: awaits the parent
mutation (modelled as an `Except` value: `error` is a thrown rejection,
which propagates before the publish line runs), then publishes
`('webhooks', { type: 'reload' })` and returns the parent's result.
The run's value is the override's own result paired with the bus events
emitted. -/
def WebhooksService.createOne (busOk : Bool) (superResult : Except String PrimaryKey) :
    Except String PrimaryKey × List PubEvent :=
  match superResult with
  | .error e => (.error e, [])
  | .ok result => (.ok result, Messenger.publish busOk "webhooks" "reload")

/-- The `createMany` override of `WebhooksService`, same shape as
`WebhooksService.createOne` with a list result. -/
def WebhooksService.createMany (busOk : Bool) (superResult : Except String (List PrimaryKey)) :
    Except String (List PrimaryKey) × List PubEvent :=
  match superResult with
  | .error e => (.error e, [])
  | .ok result => (.ok result, Messenger.publish busOk "webhooks" "reload")

/-- The `updateMany` override of `WebhooksService`. -/
def WebhooksService.updateMany (busOk : Bool) (superResult : Except String (List PrimaryKey)) :
    Except String (List PrimaryKey) × List PubEvent :=
  match superResult with
  | .error e => (.error e, [])
  | .ok result => (.ok result, Messenger.publish busOk "webhooks" "reload")

/-- The `deleteMany` override of `WebhooksService`. -/
def WebhooksService.deleteMany (busOk : Bool) (superResult : Except String (List PrimaryKey)) :
    Except String (List PrimaryKey) × List PubEvent :=
  match superResult with
  | .error e => (.error e, [])
  | .ok result => (.ok result, Messenger.publish busOk "webhooks" "reload")

/-- Ordering on query parameters used to canonicalize their order: by name,
ties broken by value. -/
def qle (a b : String × String) : Prop :=
  a.1 < b.1 ∨ (a.1 = b.1 ∧ a.2 ≤ b.2)

instance : DecidableRel qle := fun a b => by
  unfold qle; exact inferInstance

instance : IsTotal (String × String) qle where
  total a b := by
    rcases lt_trichotomy a.1 b.1 with h | h | h
    · exact Or.inl (Or.inl h)
    · rcases le_total a.2 b.2 with h2 | h2
      · exact Or.inl (Or.inr ⟨h, h2⟩)
      · exact Or.inr (Or.inr ⟨h.symm, h2⟩)
    · exact Or.inr (Or.inl h)

instance : IsTrans (String × String) qle where
  trans a b c hab hbc := by
    rcases hab with h1 | ⟨e1, l1⟩
    · rcases hbc with h2 | ⟨e2, _⟩
      · exact Or.inl (h1.trans h2)
      · exact Or.inl (e2 ▸ h1)
    · rcases hbc with h2 | ⟨e2, l2⟩
      · exact Or.inl (e1 ▸ h2)
      · exact Or.inr ⟨e1.trans e2, l1.trans l2⟩

instance : IsAntisymm (String × String) qle where
  antisymm a b hab hba := by
    rcases hab with h1 | ⟨e1, l1⟩
    · rcases hba with h2 | ⟨e2, _⟩
      · exact absurd (h1.trans h2) (lt_irrefl _)
      · exact absurd h1 (e2 ▸ lt_irrefl _)
    · rcases hba with h2 | ⟨e2, l2⟩
      · exact absurd h2 (e1 ▸ lt_irrefl _)
      · exact Prod.ext e1 (le_antisymm l1 l2)

/-- Serialization of a (canonically ordered) query-parameter list into the
key string. -/
def serializeQuery (q : List (String × String)) : String :=
  q.foldr (fun p acc => p.1 ++ "=" ++ p.2 ++ "&" ++ acc) ""

/-- Modelled from the spec: `getCacheKey` (`utils/get-cache-key.ts` is not
among the given sources). Per the spec it is a pure deterministic function of
the request method, path, query parameters normalized by sorting, and the
caller identity; the identity is placed in a dedicated trailing field. -/
def getCacheKeyModel (req : Request) : String :=
  jsToLower req.method ++ "|" ++ req.path ++ "|"
    ++ serializeQuery (List.insertionSort qle req.query) ++ "|" ++ req.identity

/-!
Concrete fixtures used by counterexamples and witnesses.
-/

/-- A store holding a payload under `"k"` and no other key: in particular,
no companion expiry record exists. -/
def storeNoExpiry : Store := fun k =>
  if k = "k" then .ok (some ⟨none, "body"⟩) else .ok none

/-- A store holding a payload under `"k"` and an expiry record whose stored
timestamp is 0. -/
def storeZeroExpiry : Store := fun k =>
  if k = "k" then .ok (some ⟨none, "body"⟩)
  else if k = "k__expires_at" then .ok (some ⟨some 0, "e"⟩)
  else .ok none

/-- A store holding a payload under `"k"` and an expiry record with (stale)
timestamp 3. -/
def storeStaleExpiry : Store := fun k =>
  if k = "k" then .ok (some ⟨none, "body"⟩)
  else if k = "k__expires_at" then .ok (some ⟨some 3, "e"⟩)
  else .ok none

/-- A store holding a fresh, valid entry: payload under `"k"` and an expiry
record with far-future timestamp 1000. -/
def storeFresh : Store := fun k =>
  if k = "k" then .ok (some ⟨none, "body"⟩)
  else if k = "k__expires_at" then .ok (some ⟨some 1000, "e"⟩)
  else .ok none

/-- A store holding nothing. -/
def storeEmpty : Store := fun _ => .ok none

/-- A store whose every read throws. -/
def storeErr : Store := fun _ => .error "boom"

/-- A store whose payload read succeeds but whose expiry read throws. -/
def storeExpiryErr : Store := fun k =>
  if k = "k" then .ok (some ⟨none, "body"⟩) else .error "boom"

/-- An environment with caching enabled and the diagnostic header configured. -/
def envOn : Env := ⟨true, some "X-Cache"⟩

/-- A plain GET request. -/
def reqGet : Request := ⟨"GET", some "/items", "/items", [], "admin"⟩

/-- An environment with caching disabled and the diagnostic header configured. -/
def envOff : Env := ⟨false, some "X-Cache"⟩

/-- A POST request whose `originalUrl` is undefined. -/
def reqPostNoUrl : Request := ⟨"POST", none, "/items", [], "admin"⟩

/-- A POST request to a non-graphql URL. -/
def reqPost : Request := ⟨"POST", some "/items", "/items", [], "admin"⟩

/-- A skip policy that never skips. -/
def sscFalse : Request → Bool := fun _ => false

/-- A skip policy that always skips. -/
def sscTrue : Request → Bool := fun _ => true

/-- A key deriver mapping every request to `"k"`. -/
def gckK : Request → String := fun _ => "k"

/-- A cache-control helper distinguishing a present remaining TTL (`"s"`)
from an absent one (`"n"`). -/
def gcchTag : Request → Option Int → Bool → Bool → String :=
  fun _ ttl _ _ => match ttl with | some _ => "s" | none => "n"

/-!
Helper lemmas.
-/

/-- String append is left-cancellative. -/
theorem string_append_left_cancel {s a b : String} (h : s ++ a = s ++ b) : a = b := by
  have hd := congrArg String.data h
  simp [String.data_append] at hd
  exact String.ext hd

/-!
Claim theorems.
-/

/-- C3: each mutation override of the webhooks service (createOne,
createMany, updateMany, deleteMany) publishes exactly one
`('webhooks', { type: 'reload' })` message on the bus when the parent
mutation succeeds, and publishes nothing when the parent mutation throws. -/
theorem webhooks_publish_exactly_once_on_success (busOk : Bool)
    (rc : Except String PrimaryKey) (rm ru rd : Except String (List PrimaryKey)) :
    ((WebhooksService.createOne busOk rc).2 =
      match rc with | .ok _ => [⟨"webhooks", "reload", busOk⟩] | .error _ => []) ∧
    ((WebhooksService.createMany busOk rm).2 =
      match rm with | .ok _ => [⟨"webhooks", "reload", busOk⟩] | .error _ => []) ∧
    ((WebhooksService.updateMany busOk ru).2 =
      match ru with | .ok _ => [⟨"webhooks", "reload", busOk⟩] | .error _ => []) ∧
    ((WebhooksService.deleteMany busOk rd).2 =
      match rd with | .ok _ => [⟨"webhooks", "reload", busOk⟩] | .error _ => []) :=
  ⟨by cases rc <;> rfl, by cases rm <;> rfl, by cases ru <;> rfl, by cases rd <;> rfl⟩

/-- C1 (counterexample): the claim that the Cache Gate passes through with
status MISS when the companion expiry record is absent is false. Concretely:
with caching enabled, a configured status header, a payload stored under
`"k"`, and no `"k__expires_at"` record in the store, the middleware serves
the cached payload and sets the status header to HIT. -/
theorem cache_gate_c1_counterexample :
    storeNoExpiry "k__expires_at" = .ok none ∧
    (checkCacheMiddleware envOn (some storeNoExpiry) sscFalse gckK gcchTag 5 reqGet).outcome
      = .served ⟨none, "body"⟩ ∧
    (checkCacheMiddleware envOn (some storeNoExpiry) sscFalse gckK gcchTag 5 reqGet).headers
      = [("Cache-Control", "n"), ("Vary", "Origin, Cache-Control"), ("X-Cache", "HIT")] := by
  decide

/-- C1 (amended): whenever the payload lookup finds a value and the expiry
lookup does not throw, the Cache Gate serves from cache with status HIT even
when the expiry record is absent or its timestamp minus the current time is
non-positive; the expiry only influences the remaining-TTL value passed to
the Cache-Control helper. -/
theorem cache_gate_serves_despite_stale_expiry
    (E : Env) (cache : Store) (ssc : Request → Bool) (gck : Request → String)
    (gcch : Request → Option Int → Bool → Bool → String) (now : Int) (req : Request)
    (s : String) (data : JVal) (expv : Option JVal)
    (hG : mutatingVerbGuard req = false) (hE : E.cacheEnabled = true)
    (hS : ssc req = false)
    (hP : cache (gck req) = .ok (some data))
    (hX : cache (gck req ++ "__expires_at") = .ok expv)
    (_hstale : Option.bind expv JVal.exp = none ∨
      ∃ e, Option.bind expv JVal.exp = some e ∧ e - now ≤ 0)
    (hH : E.statusHeader = some s) (hs : s ≠ "") :
    (checkCacheMiddleware E (some cache) ssc gck gcch now req).outcome = .served data ∧
    (checkCacheMiddleware E (some cache) ssc gck gcch now req).headers =
      [("Cache-Control", gcch req (remainingTTL expv now) true true),
       ("Vary", "Origin, Cache-Control"), (s, "HIT")] := by
  simp [checkCacheMiddleware, afterGuards, hitHeaders, hG, hE, hS, hP, hX, hH, hs]

/-- C1 (witness for the amended theorem): concrete run against a stale
expiry record (timestamp 3, current time 10), still served with HIT. -/
theorem cache_gate_serves_despite_stale_expiry_witness :
    (checkCacheMiddleware envOn (some storeStaleExpiry) sscFalse gckK gcchTag 10 reqGet).outcome
      = .served ⟨none, "body"⟩ ∧
    (checkCacheMiddleware envOn (some storeStaleExpiry) sscFalse gckK gcchTag 10 reqGet).headers
      = [("Cache-Control", gcchTag reqGet (remainingTTL (some ⟨some 3, "e"⟩) 10) true true),
         ("Vary", "Origin, Cache-Control"), ("X-Cache", "HIT")] :=
  cache_gate_serves_despite_stale_expiry envOn storeStaleExpiry sscFalse gckK gcchTag 10 reqGet
    "X-Cache" ⟨none, "body"⟩ (some ⟨some 3, "e"⟩) (by decide) rfl rfl (by decide) (by decide)
    (Or.inr ⟨3, by decide⟩) rfl (by decide)

/-- C2: a cache-store read error, on the payload lookup or on the expiry
lookup, never fails the request: the middleware logs the warning, sets the
configured status header to MISS, and passes through to `next()`. -/
theorem cache_gate_read_error_fails_open
    (E : Env) (cache : Store) (ssc : Request → Bool) (gck : Request → String)
    (gcch : Request → Option Int → Bool → Bool → String) (now : Int) (req : Request)
    (s m : String) (data : JVal)
    (hG : mutatingVerbGuard req = false) (hE : E.cacheEnabled = true)
    (hS : ssc req = false)
    (hH : E.statusHeader = some s) (hs : s ≠ "") :
    (cache (gck req) = .error m →
      checkCacheMiddleware E (some cache) ssc gck gcch now req =
        ⟨[(s, "MISS")], [gck req], [cacheReadWarning (gck req) m], .passThrough⟩) ∧
    (cache (gck req) = .ok (some data) →
      cache (gck req ++ "__expires_at") = .error m →
      checkCacheMiddleware E (some cache) ssc gck gcch now req =
        ⟨[(s, "MISS")], [gck req, gck req ++ "__expires_at"],
         [cacheReadWarning (gck req ++ "__expires_at") m], .passThrough⟩) := by
  constructor
  · intro hP
    simp [checkCacheMiddleware, afterGuards, missHeaders, hG, hE, hS, hP, hH, hs]
  · intro hP hX
    simp [checkCacheMiddleware, afterGuards, missHeaders, hG, hE, hS, hP, hX, hH, hs]

/-- C2 (witness): concrete runs against a store that throws on every read,
and against a store that throws only on the expiry read. -/
theorem cache_gate_read_error_fails_open_witness :
    checkCacheMiddleware envOn (some storeErr) sscFalse gckK gcchTag 5 reqGet =
      ⟨[("X-Cache", "MISS")], ["k"], [cacheReadWarning "k" "boom"], .passThrough⟩ ∧
    checkCacheMiddleware envOn (some storeExpiryErr) sscFalse gckK gcchTag 5 reqGet =
      ⟨[("X-Cache", "MISS")], ["k", "k__expires_at"],
       [cacheReadWarning "k__expires_at" "boom"], .passThrough⟩ :=
  ⟨(cache_gate_read_error_fails_open envOn storeErr sscFalse gckK gcchTag 5 reqGet
      "X-Cache" "boom" ⟨none, "body"⟩ (by decide) rfl rfl rfl (by decide)).1 rfl,
   (cache_gate_read_error_fails_open envOn storeExpiryErr sscFalse gckK gcchTag 5 reqGet
      "X-Cache" "boom" ⟨none, "body"⟩ (by decide) rfl rfl rfl (by decide)).2
     (by decide) (by decide)⟩

/-- C4: on a serve-from-cache run (payload found, expiry lookup error-free)
the middleware sets exactly, in order, a Cache-Control header computed by
the cache-control helper from the remaining TTL, a Vary header naming
Origin and Cache-Control, and the configured diagnostic header set to HIT;
it reads exactly the payload key and its expiry companion, logs nothing, and
returns the stored payload without calling `next()`. -/
theorem cache_gate_hit_headers
    (E : Env) (cache : Store) (ssc : Request → Bool) (gck : Request → String)
    (gcch : Request → Option Int → Bool → Bool → String) (now : Int) (req : Request)
    (s : String) (data : JVal) (expv : Option JVal)
    (hG : mutatingVerbGuard req = false) (hE : E.cacheEnabled = true)
    (hS : ssc req = false)
    (hP : cache (gck req) = .ok (some data))
    (hX : cache (gck req ++ "__expires_at") = .ok expv)
    (hH : E.statusHeader = some s) (hs : s ≠ "") :
    checkCacheMiddleware E (some cache) ssc gck gcch now req =
      ⟨[("Cache-Control", gcch req (remainingTTL expv now) true true),
        ("Vary", "Origin, Cache-Control"), (s, "HIT")],
       [gck req, gck req ++ "__expires_at"], [], .served data⟩ := by
  simp [checkCacheMiddleware, afterGuards, hitHeaders, hG, hE, hS, hP, hX, hH, hs]

/-- C4 (witness): concrete serve-from-cache run against a fresh entry. -/
theorem cache_gate_hit_headers_witness :
    checkCacheMiddleware envOn (some storeFresh) sscFalse gckK gcchTag 5 reqGet =
      ⟨[("Cache-Control", gcchTag reqGet (remainingTTL (some ⟨some 1000, "e"⟩) 5) true true),
        ("Vary", "Origin, Cache-Control"), ("X-Cache", "HIT")],
       ["k", "k__expires_at"], [], .served ⟨none, "body"⟩⟩ :=
  cache_gate_hit_headers envOn storeFresh sscFalse gckK gcchTag 5 reqGet
    "X-Cache" ⟨none, "body"⟩ (some ⟨some 1000, "e"⟩) (by decide) rfl rfl (by decide)
    (by decide) rfl (by decide)

/-- C5: when the skip policy fires, the middleware sets the configured
status header to MISS and calls `next()` without performing any store
lookup — for an arbitrary store, so in particular also when a valid cached
entry exists under the request's key. -/
theorem cache_gate_skip_no_lookup
    (E : Env) (cache : Store) (ssc : Request → Bool) (gck : Request → String)
    (gcch : Request → Option Int → Bool → Bool → String) (now : Int) (req : Request)
    (s : String)
    (hG : mutatingVerbGuard req = false) (hE : E.cacheEnabled = true)
    (hS : ssc req = true)
    (hH : E.statusHeader = some s) (hs : s ≠ "") :
    checkCacheMiddleware E (some cache) ssc gck gcch now req =
      ⟨[(s, "MISS")], [], [], .passThrough⟩ := by
  simp [checkCacheMiddleware, afterGuards, missHeaders, hG, hE, hS, hH, hs]

/-- C5 (witness): concrete skipped run against a store that does hold a
fresh valid entry under the derived key. -/
theorem cache_gate_skip_no_lookup_witness :
    checkCacheMiddleware envOn (some storeFresh) sscTrue gckK gcchTag 5 reqGet =
      ⟨[("X-Cache", "MISS")], [], [], .passThrough⟩ :=
  cache_gate_skip_no_lookup envOn storeFresh sscTrue gckK gcchTag 5 reqGet
    "X-Cache" (by decide) rfl rfl rfl (by decide)

/-- C6 (counterexample): the claim that the remaining TTL is always the
stored expiry timestamp minus the current time fails for a stored timestamp
of 0, which is falsy in JavaScript: with expiry timestamp 0 and current time
5 the middleware hands the cache-control helper no TTL (tag `"n"`), whereas
the claimed TTL `0 - 5` would produce tag `"s"`. -/
theorem cache_gate_c6_counterexample :
    storeZeroExpiry "k__expires_at" = .ok (some ⟨some 0, "e"⟩) ∧
    (checkCacheMiddleware envOn (some storeZeroExpiry) sscFalse gckK gcchTag 5 reqGet).headers
      = [("Cache-Control", "n"), ("Vary", "Origin, Cache-Control"), ("X-Cache", "HIT")] ∧
    gcchTag reqGet (some ((0 : Int) - 5)) true true = "s" ∧
    ("n" : String) ≠ "s" := by
  decide

/-- C6 (amended): the expiry record is looked up under exactly the payload
key with the suffix `"__expires_at"` appended, and for a nonzero stored
timestamp `e` the remaining TTL handed to the cache-control helper is
`e - now`; a stored timestamp of 0 is falsy in JavaScript and yields no TTL. -/
theorem cache_gate_expiry_key_and_ttl
    (E : Env) (cache : Store) (ssc : Request → Bool) (gck : Request → String)
    (gcch : Request → Option Int → Bool → Bool → String) (now : Int) (req : Request)
    (data : JVal) (e : Int) (b : String)
    (hG : mutatingVerbGuard req = false) (hE : E.cacheEnabled = true)
    (hS : ssc req = false)
    (hP : cache (gck req) = .ok (some data))
    (hX : cache (gck req ++ "__expires_at") = .ok (some ⟨some e, b⟩))
    (he : e ≠ 0) :
    (checkCacheMiddleware E (some cache) ssc gck gcch now req).lookups =
      [gck req, gck req ++ "__expires_at"] ∧
    (checkCacheMiddleware E (some cache) ssc gck gcch now req).headers.head? =
      some ("Cache-Control", gcch req (some (e - now)) true true) := by
  simp [checkCacheMiddleware, afterGuards, remainingTTL, hG, hE, hS, hP, hX, he]

/-- C6 (witness): concrete run against the fresh entry (timestamp 1000,
current time 5): keys read are the payload key and its suffixed companion,
and the TTL handed on is 995. -/
theorem cache_gate_expiry_key_and_ttl_witness :
    (checkCacheMiddleware envOn (some storeFresh) sscFalse gckK gcchTag 5 reqGet).lookups =
      ["k", "k__expires_at"] ∧
    (checkCacheMiddleware envOn (some storeFresh) sscFalse gckK gcchTag 5 reqGet).headers.head? =
      some ("Cache-Control", gcchTag reqGet (some ((1000 : Int) - 5)) true true) :=
  cache_gate_expiry_key_and_ttl envOn storeFresh sscFalse gckK gcchTag 5 reqGet
    ⟨none, "body"⟩ 1000 "e" (by decide) rfl rfl (by decide) (by decide) (by decide)

/-- C7: the result of each webhooks mutation override is the parent
mutation's result unchanged, even when the bus rejects the publish
(`busOk = false`): a publish failure never fails the mutation. -/
theorem webhooks_result_survives_publish_failure
    (rc : Except String PrimaryKey) (rm ru rd : Except String (List PrimaryKey)) :
    (WebhooksService.createOne false rc).1 = rc ∧
    (WebhooksService.createMany false rm).1 = rm ∧
    (WebhooksService.updateMany false ru).1 = ru ∧
    (WebhooksService.deleteMany false rd).1 = rd :=
  ⟨by cases rc <;> rfl, by cases rm <;> rfl, by cases ru <;> rfl, by cases rd <;> rfl⟩

/-- C8: the modelled key deriver maps requests with identical method, path,
identity and query parameters up to reordering to identical keys, and maps
requests differing only in caller identity to different keys. -/
theorem getCacheKey_perm_and_identity
    (m p id id1 id2 : String) (q q1 q2 : List (String × String)) :
    (q1.Perm q2 →
      getCacheKeyModel ⟨m, none, p, q1, id⟩ = getCacheKeyModel ⟨m, none, p, q2, id⟩) ∧
    (id1 ≠ id2 →
      getCacheKeyModel ⟨m, none, p, q, id1⟩ ≠ getCacheKeyModel ⟨m, none, p, q, id2⟩) := by
  constructor
  · intro hp
    have hsort : List.insertionSort qle q1 = List.insertionSort qle q2 :=
      List.eq_of_perm_of_sorted
        (((List.perm_insertionSort qle q1).trans hp).trans
          (List.perm_insertionSort qle q2).symm)
        (List.sorted_insertionSort qle q1) (List.sorted_insertionSort qle q2)
    simp [getCacheKeyModel, hsort]
  · intro hid heq
    simp only [getCacheKeyModel] at heq
    exact hid (string_append_left_cancel heq)

/-- C8 (witness): the two query orders of concrete scenario B collide, and
two identities separate. -/
theorem getCacheKey_perm_and_identity_witness :
    getCacheKeyModel ⟨"GET", none, "/items", [("b", "2"), ("a", "1")], "admin"⟩ =
      getCacheKeyModel ⟨"GET", none, "/items", [("a", "1"), ("b", "2")], "admin"⟩ ∧
    getCacheKeyModel ⟨"GET", none, "/items", [], "u1"⟩ ≠
      getCacheKeyModel ⟨"GET", none, "/items", [], "u2"⟩ :=
  ⟨(getCacheKey_perm_and_identity "GET" "/items" "admin" "u1" "u2" []
      [("b", "2"), ("a", "1")] [("a", "1"), ("b", "2")]).1 (by decide),
   (getCacheKey_perm_and_identity "GET" "/items" "admin" "u1" "u2" []
      [("b", "2"), ("a", "1")] [("a", "1"), ("b", "2")]).2 (by decide)⟩

/-- C9: for a non-GET request whose `originalUrl` is undefined, the
mutating-verb guard does not fire (the optional chain compares `undefined`
with `false`), and the middleware proceeds into the skip-policy check and
cache-lookup path (`afterGuards`) rather than passing through at once. -/
theorem cache_gate_undefined_originalUrl
    (E : Env) (cache : Store) (ssc : Request → Bool) (gck : Request → String)
    (gcch : Request → Option Int → Bool → Bool → String) (now : Int) (req : Request)
    (_hm : jsToLower req.method ≠ "get") (hu : req.originalUrl = none)
    (hE : E.cacheEnabled = true) :
    mutatingVerbGuard req = false ∧
    checkCacheMiddleware E (some cache) ssc gck gcch now req =
      afterGuards E cache ssc gck gcch now req := by
  have hg : mutatingVerbGuard req = false := by
    simp [mutatingVerbGuard, hu]
  exact ⟨hg, by simp [checkCacheMiddleware, hg, hE]⟩

/-- C9 (witness): a concrete POST request with undefined `originalUrl`
reaches the skip check and, here, the lookup that serves the fresh entry. -/
theorem cache_gate_undefined_originalUrl_witness :
    mutatingVerbGuard reqPostNoUrl = false ∧
    checkCacheMiddleware envOn (some storeFresh) sscFalse gckK gcchTag 5 reqPostNoUrl =
      afterGuards envOn storeFresh sscFalse gckK gcchTag 5 reqPostNoUrl :=
  cache_gate_undefined_originalUrl envOn storeFresh sscFalse gckK gcchTag 5 reqPostNoUrl
    (by decide) rfl rfl

/-- C10: the three earliest pass-through branches (mutating verb outside
graphql, caching disabled, store object absent) set no header at all, while
the explicit-skip, payload-read-error, and payload-absent branches set the
configured diagnostic header to MISS. -/
theorem cache_gate_early_branches_set_no_header
    (E : Env) (cacheOpt : Option Store) (cache : Store) (ssc : Request → Bool)
    (gck : Request → String) (gcch : Request → Option Int → Bool → Bool → String)
    (now : Int) (req : Request) (s m : String) :
    (mutatingVerbGuard req = true →
      checkCacheMiddleware E cacheOpt ssc gck gcch now req = ⟨[], [], [], .passThrough⟩) ∧
    (E.cacheEnabled = false →
      checkCacheMiddleware E cacheOpt ssc gck gcch now req = ⟨[], [], [], .passThrough⟩) ∧
    (checkCacheMiddleware E none ssc gck gcch now req = ⟨[], [], [], .passThrough⟩) ∧
    (E.statusHeader = some s → s ≠ "" → mutatingVerbGuard req = false →
      E.cacheEnabled = true → ssc req = true →
      (checkCacheMiddleware E (some cache) ssc gck gcch now req).headers = [(s, "MISS")]) ∧
    (E.statusHeader = some s → s ≠ "" → mutatingVerbGuard req = false →
      E.cacheEnabled = true → ssc req = false → cache (gck req) = .error m →
      (checkCacheMiddleware E (some cache) ssc gck gcch now req).headers = [(s, "MISS")]) ∧
    (E.statusHeader = some s → s ≠ "" → mutatingVerbGuard req = false →
      E.cacheEnabled = true → ssc req = false → cache (gck req) = .ok none →
      (checkCacheMiddleware E (some cache) ssc gck gcch now req).headers = [(s, "MISS")]) := by
  refine ⟨?_, ?_, ?_, ?_, ?_, ?_⟩
  · intro hg
    simp [checkCacheMiddleware, hg]
  · intro he
    cases hg : mutatingVerbGuard req <;> simp [checkCacheMiddleware, hg, he]
  · cases hg : mutatingVerbGuard req <;> cases he : E.cacheEnabled <;>
      simp [checkCacheMiddleware, hg, he]
  · intro hH hs hg he hS
    simp [checkCacheMiddleware, afterGuards, missHeaders, hg, he, hS, hH, hs]
  · intro hH hs hg he hS hP
    simp [checkCacheMiddleware, afterGuards, missHeaders, hg, he, hS, hP, hH, hs]
  · intro hH hs hg he hS hP
    simp [checkCacheMiddleware, afterGuards, missHeaders, hg, he, hS, hP, hH, hs]

/-- C10 (witness): concrete runs for a mutating-verb bypass, a disabled
cache, an absent store object, an explicit skip, and an absent payload. -/
theorem cache_gate_early_branches_set_no_header_witness :
    checkCacheMiddleware envOn (some storeFresh) sscFalse gckK gcchTag 5 reqPost =
      ⟨[], [], [], .passThrough⟩ ∧
    checkCacheMiddleware envOff (some storeFresh) sscFalse gckK gcchTag 5 reqGet =
      ⟨[], [], [], .passThrough⟩ ∧
    checkCacheMiddleware envOn none sscFalse gckK gcchTag 5 reqGet =
      ⟨[], [], [], .passThrough⟩ ∧
    (checkCacheMiddleware envOn (some storeFresh) sscTrue gckK gcchTag 5 reqGet).headers =
      [("X-Cache", "MISS")] ∧
    (checkCacheMiddleware envOn (some storeEmpty) sscFalse gckK gcchTag 5 reqGet).headers =
      [("X-Cache", "MISS")] :=
  ⟨(cache_gate_early_branches_set_no_header envOn (some storeFresh) storeFresh sscFalse gckK
      gcchTag 5 reqPost "X-Cache" "boom").1 (by decide),
   (cache_gate_early_branches_set_no_header envOff (some storeFresh) storeFresh sscFalse gckK
      gcchTag 5 reqGet "X-Cache" "boom").2.1 rfl,
   (cache_gate_early_branches_set_no_header envOn none storeFresh sscFalse gckK
      gcchTag 5 reqGet "X-Cache" "boom").2.2.1,
   (cache_gate_early_branches_set_no_header envOn (some storeFresh) storeFresh sscTrue gckK
      gcchTag 5 reqGet "X-Cache" "boom").2.2.2.1 rfl (by decide) (by decide) rfl rfl,
   (cache_gate_early_branches_set_no_header envOn (some storeEmpty) storeEmpty sscFalse gckK
      gcchTag 5 reqGet "X-Cache" "boom").2.2.2.2.2 rfl (by decide) (by decide) rfl rfl rfl⟩

end Directus
